import Mathlib

/-!
Shallow embedding of `rutabaga_gfx/src/rutabaga_core.rs` (crosvm): the
resource/context multiplexing core of a GPU virtualization layer.

Pure functions of the source become Lean functions; the `Rutabaga` struct's
stateful methods become state-passing functions returning a result together
with the updated state.  The `BTreeMap` registries become association lists.
Trait objects (`dyn RutabagaComponent`, `dyn RutabagaContext`) become records
of behaviour functions together with call logs, so that delivery of a call to
a component or a context is observable in the state.
-/

namespace RutabagaCore

/-- Modelled from the spec: numeric capability-set id of the virgl capset.
The constants `RUTABAGA_CAPSET_*` are declared in `rutabaga_utils.rs`, which
is not among the provided sources; the claims depend only on the ids being
pairwise distinct, which the standard virtio-gpu values used here are. -/
def RUTABAGA_CAPSET_VIRGL : Nat := 1

/-- Modelled from the spec: numeric capability-set id of the virgl2 capset. -/
def RUTABAGA_CAPSET_VIRGL2 : Nat := 2

/-- Modelled from the spec: numeric capability-set id of the gfxstream capset. -/
def RUTABAGA_CAPSET_GFXSTREAM : Nat := 3

/-- Modelled from the spec: numeric capability-set id of the venus capset. -/
def RUTABAGA_CAPSET_VENUS : Nat := 4

/-- Modelled from the spec: numeric capability-set id of the cross-domain capset. -/
def RUTABAGA_CAPSET_CROSS_DOMAIN : Nat := 5

/-- Modelled from the spec: numeric capability-set id of the drm capset. -/
def RUTABAGA_CAPSET_DRM : Nat := 6

/-- Modelled from the spec: blob flag bit marking a mappable blob resource
(declared in `rutabaga_utils.rs`, not among the provided sources). -/
def RUTABAGA_BLOB_FLAG_USE_MAPPABLE : Nat := 1

/-- Modelled from the spec: blob flag bit marking a shareable blob resource. -/
def RUTABAGA_BLOB_FLAG_USE_SHAREABLE : Nat := 2

/-- Modelled from the spec: blob flag bit marking a cross-device blob resource. -/
def RUTABAGA_BLOB_FLAG_USE_CROSS_DEVICE : Nat := 4

/-- Modelled from the spec: fence flag bit requesting a per-ring-index fence
scoped to a specific context's timeline. -/
def RUTABAGA_FLAG_INFO_RING_IDX : Nat := 2

/-- Modelled from the spec: mask extracting the capset id from the low bits of
the `context_init` parameter of context creation. -/
def RUTABAGA_CONTEXT_INIT_CAPSET_ID_MASK : Nat := 0xff

/-- The error taxonomy of `RutabagaError` (`rutabaga_utils.rs`), restricted to
the variants `rutabaga_core.rs` produces.  Note the source reuses
`InvalidResourceId` both for a missing resource id and for a duplicate
resource id on create, and likewise `InvalidContextId`. -/
inductive RutabagaError where
  | InvalidResourceId
  | InvalidContextId
  | InvalidComponent
  | InvalidCapset
  | InvalidRutabagaHandle
  | InvalidVulkanInfo
  | Unsupported
  | SpecViolation (msg : String)
  | InvalidRutabagaBuild (msg : String)
deriving DecidableEq, Repr

/-- `RutabagaResult<T>` from the source. -/
abbrev RutabagaResult (α : Type) : Type := Except RutabagaError α

/-- The closed set of rendering components (`RutabagaComponentType` in
`rutabaga_utils.rs`, restricted to the variants `rutabaga_core.rs` uses). -/
inductive RutabagaComponentType where
  | Rutabaga2D
  | VirglRenderer
  | Gfxstream
  | CrossDomain
deriving DecidableEq, Repr

/-- Modelled from the spec: an opaque, cross-process-shareable OS object plus a
type tag (`RutabagaHandle` in `rutabaga_utils.rs`, not among the provided
sources). -/
structure RutabagaHandle where
  os_handle : Nat
  handle_type : Nat
deriving DecidableEq, Repr

/-- Modelled from the spec: `RutabagaHandle::try_clone` duplicates the
underlying OS object (increase/duplicate sharing, not move semantics); it is
modelled as always succeeding with a value-equal handle. -/
def RutabagaHandle.try_clone (h : RutabagaHandle) : RutabagaResult RutabagaHandle :=
  .ok h

/-- Modelled from the spec: `Arc<RutabagaHandle>` as the handle value together
with the total number of outstanding strong references to the allocation
(always at least one while the `Arc` is live). -/
structure ArcRutabagaHandle where
  handle : RutabagaHandle
  strong : Nat
deriving DecidableEq, Repr

/-- `Arc::try_unwrap`: succeeds, yielding the inner value, exactly when the
given reference is the sole strong reference; otherwise hands the `Arc` back
as the error. -/
def Arc.try_unwrap (a : ArcRutabagaHandle) : Except ArcRutabagaHandle RutabagaHandle :=
  if a.strong = 1 then .ok a.handle else .error a

/-- Information required for 2D functionality (`Rutabaga2DInfo`). -/
structure Rutabaga2DInfo where
  width : Nat
  height : Nat
  host_mem : List Nat
deriving DecidableEq, Repr

/-- Modelled from the spec: 3D metadata (format/target/bind info) carried by a
resource; declared in `rutabaga_utils.rs`, not among the provided sources. -/
structure Resource3DInfo where
  width : Nat
  height : Nat
  format : Nat
deriving DecidableEq, Repr

/-- Modelled from the spec: Vulkan metadata (physical-device index and
memory-type index) of a blob resource backed by Vulkan memory. -/
structure VulkanInfo where
  physical_device_idx : Nat
  memory_idx : Nat
deriving DecidableEq, Repr

/-- Modelled from the spec: one guest-supplied scatter/gather memory
descriptor (`RutabagaIovec`). -/
structure RutabagaIovec where
  base : Nat
  len : Nat
deriving DecidableEq, Repr

/-- Modelled from the spec: the parameter struct of 3D resource creation
(`ResourceCreate3D` in `rutabaga_utils.rs`); the orchestrator passes it
through opaquely. -/
structure ResourceCreate3D where
  target : Nat
  format : Nat
  bind : Nat
  width : Nat
  height : Nat
  depth : Nat
deriving DecidableEq, Repr

/-- Modelled from the spec: the parameter struct of blob resource creation
(`ResourceCreateBlob`); the orchestrator passes it through opaquely. -/
structure ResourceCreateBlob where
  blob_mem : Nat
  blob_flags : Nat
  blob_id : Nat
  size : Nat
deriving DecidableEq, Repr

/-- Modelled from the spec: a synchronization token carrying a flags bitfield,
an opaque fence id, a context id and a ring index (`RutabagaFence`). -/
structure RutabagaFence where
  flags : Nat
  fence_id : Nat
  ctx_id : Nat
  ring_idx : Nat
deriving DecidableEq, Repr

/-- Modelled from the spec: the fence-completion callback handed to components
and contexts; opaque at this layer. -/
structure RutabagaFenceHandler where
  id : Nat
deriving DecidableEq, Repr

/-- Modelled from the spec: a channel descriptor for the cross-domain channel
backend. -/
structure RutabagaChannel where
  base_channel : String
  channel_type : Nat
deriving DecidableEq, Repr

/-- A Rutabaga resource, supporting 2D and 3D rutabaga features
(`RutabagaResource` in the source). -/
structure RutabagaResource where
  resource_id : Nat
  handle : Option ArcRutabagaHandle
  blob : Bool
  blob_mem : Nat
  blob_flags : Nat
  map_info : Option Nat
  info_2d : Option Rutabaga2DInfo
  info_3d : Option Resource3DInfo
  vulkan_info : Option VulkanInfo
  backing_iovecs : Option (List RutabagaIovec)
  import_mask : Nat
deriving DecidableEq, Repr

/-- `dyn RutabagaContext`: a per-backend command-submission sink, modelled as
its behaviour functions plus a log of the fences delivered to
`context_create_fence` (the spec's test-double observation point). -/
structure RutabagaContext where
  component_type : RutabagaComponentType
  context_create_blob :
    Nat → ResourceCreateBlob → Option RutabagaHandle → RutabagaResult RutabagaResource
  context_create_fence_result : RutabagaFence → RutabagaResult Unit
  fences_received : List RutabagaFence

/-- `dyn RutabagaComponent`: a backend capability, modelled as its behaviour
functions plus logs of the fences delivered to `create_fence` and of the
resource ids delivered to `unref_resource`. -/
structure RutabagaComponent where
  get_capset_info : Nat → Nat × Nat
  get_capset : Nat → Nat → List Nat
  create_fence_result : RutabagaFence → RutabagaResult Unit
  create_3d : Nat → ResourceCreate3D → RutabagaResult RutabagaResource
  create_blob :
    Nat → Nat → ResourceCreateBlob → Option (List RutabagaIovec) → Option RutabagaHandle →
      RutabagaResult RutabagaResource
  create_context :
    Nat → Nat → Option String → RutabagaFenceHandler → RutabagaResult RutabagaContext
  fences_received : List RutabagaFence
  unref_calls : List Nat

/-- One entry of the static capability-set catalog (`RutabagaCapsetInfo`). -/
structure RutabagaCapsetInfo where
  capset_id : Nat
  component : RutabagaComponentType
  name : String
deriving DecidableEq, Repr

/-- The static capability-set catalog `RUTABAGA_CAPSETS`. -/
def RUTABAGA_CAPSETS : List RutabagaCapsetInfo :=
  [ { capset_id := RUTABAGA_CAPSET_VIRGL
    , component := RutabagaComponentType.VirglRenderer
    , name := "virgl" }
  , { capset_id := RUTABAGA_CAPSET_VIRGL2
    , component := RutabagaComponentType.VirglRenderer
    , name := "virgl2" }
  , { capset_id := RUTABAGA_CAPSET_GFXSTREAM
    , component := RutabagaComponentType.Gfxstream
    , name := "gfxstream" }
  , { capset_id := RUTABAGA_CAPSET_VENUS
    , component := RutabagaComponentType.VirglRenderer
    , name := "venus" }
  , { capset_id := RUTABAGA_CAPSET_CROSS_DOMAIN
    , component := RutabagaComponentType.CrossDomain
    , name := "cross-domain" }
  , { capset_id := RUTABAGA_CAPSET_DRM
    , component := RutabagaComponentType.VirglRenderer
    , name := "drm" } ]

/-- The step of `calculate_context_mask`'s `for_each` closure: OR in the bit
of the capset whose name matches, if any. -/
def context_mask_step (context_mask : Nat) (name : String) : Nat :=
  match RUTABAGA_CAPSETS.find? (fun capset => capset.name == name) with
  | some capset => context_mask ||| (1 <<< capset.capset_id)
  | none => context_mask

/-- `calculate_context_mask`: encode a list of capability names as a bitmask,
one bit per capset numeric id. -/
def calculate_context_mask (context_names : List String) : Nat :=
  context_names.foldl context_mask_step 0

/-- `calculate_context_types`: decode a bitmask back to the names of the
catalog entries whose bit is set. -/
def calculate_context_types (context_mask : Nat) : List String :=
  (RUTABAGA_CAPSETS.filter
      (fun capset => context_mask &&& (1 <<< capset.capset_id) != 0)).map
    (fun capset => capset.name)

/-- Lookup in an association-list registry (the `BTreeMap::get` of the
source). -/
def mfind? {κ α : Type} [DecidableEq κ] : List (κ × α) → κ → Option α
  | [], _ => none
  | (k, v) :: rest, k' => if k = k' then some v else mfind? rest k'

/-- `BTreeMap::contains_key`. -/
def mcontains {κ α : Type} [DecidableEq κ] (m : List (κ × α)) (k : κ) : Bool :=
  (mfind? m k).isSome

/-- Registry insertion; the source only inserts ids it has just checked to be
absent. -/
def minsert {κ α : Type} (m : List (κ × α)) (k : κ) (v : α) : List (κ × α) :=
  (k, v) :: m

/-- In-place mutation through a `get_mut` borrow: replace the value stored at
the key. -/
def mupdate {κ α : Type} [DecidableEq κ] (m : List (κ × α)) (k : κ) (v : α) :
    List (κ × α) :=
  m.map (fun p => (p.1, if p.1 = k then v else p.2))

/-- `BTreeMap::remove`. -/
def mremove {κ α : Type} [DecidableEq κ] (m : List (κ × α)) (k : κ) : List (κ × α) :=
  m.filter (fun p => !(decide (p.1 = k)))

/-- The `Rutabaga` orchestrator: the authoritative registries plus the set of
instantiated components and the configured default component. -/
structure Rutabaga where
  resources : List (Nat × RutabagaResource)
  contexts : List (Nat × RutabagaContext)
  components : List (RutabagaComponentType × RutabagaComponent)
  default_component : RutabagaComponentType
  capset_info : List RutabagaCapsetInfo
  fence_handler : RutabagaFenceHandler

/-- `Rutabaga::capset_id_to_component_type`: resolve a capset id through the
instance catalog, `InvalidCapset` when absent. -/
def Rutabaga.capset_id_to_component_type (s : Rutabaga) (capset_id : Nat) :
    RutabagaResult RutabagaComponentType :=
  match s.capset_info.find? (fun capset_info => capset_info.capset_id == capset_id) with
  | none => .error .InvalidCapset
  | some capset_info => .ok capset_info.component

/-- `Rutabaga::get_capset`: resolve the serving component from the capset id,
falling back to the default component for an unrecognized id (the "default
workaround" of the source), then return that component's capability blob. -/
def Rutabaga.get_capset (s : Rutabaga) (capset_id version : Nat) :
    RutabagaResult (List Nat) :=
  let component_type :=
    match s.capset_id_to_component_type capset_id with
    | .ok t => t
    | .error _ => s.default_component
  match mfind? s.components component_type with
  | none => .error .InvalidComponent
  | some component => .ok (component.get_capset capset_id version)

/-- `Rutabaga::create_fence`: a fence whose flags include
`RUTABAGA_FLAG_INFO_RING_IDX` is delivered to the context named by its
`ctx_id`; otherwise it is delivered to the default component. -/
def Rutabaga.create_fence (s : Rutabaga) (fence : RutabagaFence) :
    RutabagaResult Unit × Rutabaga :=
  if fence.flags &&& RUTABAGA_FLAG_INFO_RING_IDX != 0 then
    match mfind? s.contexts fence.ctx_id with
    | none => (.error .InvalidContextId, s)
    | some ctx =>
      let s' := { s with
        contexts := mupdate s.contexts fence.ctx_id
          { ctx with fences_received := ctx.fences_received ++ [fence] } }
      match ctx.context_create_fence_result fence with
      | .error e => (.error e, s')
      | .ok _ => (.ok (), s')
  else
    match mfind? s.components s.default_component with
    | none => (.error .InvalidComponent, s)
    | some component =>
      let s' := { s with
        components := mupdate s.components s.default_component
          { component with fences_received := component.fences_received ++ [fence] } }
      match component.create_fence_result fence with
      | .error e => (.error e, s')
      | .ok _ => (.ok (), s')

/-- `Rutabaga::resource_create_3d`: resolve the default component, reject a
duplicate resource id, delegate, and insert the returned resource on
success. -/
def Rutabaga.resource_create_3d (s : Rutabaga) (resource_id : Nat)
    (resource_create_3d : ResourceCreate3D) : RutabagaResult Unit × Rutabaga :=
  match mfind? s.components s.default_component with
  | none => (.error .InvalidComponent, s)
  | some component =>
    if mcontains s.resources resource_id then
      (.error .InvalidResourceId, s)
    else
      match component.create_3d resource_id resource_create_3d with
      | .error e => (.error e, s)
      | .ok resource =>
        (.ok (), { s with resources := minsert s.resources resource_id resource })

/-- `Rutabaga::unref_resource`: resolve the default component, remove the
resource (not-found when absent), then deliver `unref_resource` to the
component. -/
def Rutabaga.unref_resource (s : Rutabaga) (resource_id : Nat) :
    RutabagaResult Unit × Rutabaga :=
  match mfind? s.components s.default_component with
  | none => (.error .InvalidComponent, s)
  | some component =>
    match mfind? s.resources resource_id with
    | none => (.error .InvalidResourceId, s)
    | some _ =>
      (.ok (), { s with
        resources := mremove s.resources resource_id,
        components := mupdate s.components s.default_component
          { component with unref_calls := component.unref_calls ++ [resource_id] } })

/-- `Rutabaga::resource_create_blob`: reject a duplicate resource id, resolve
the default component, then — when a nonzero `ctx_id` names a registered
context of cross-domain component type — delegate to that context's
`context_create_blob`, otherwise to the component's `create_blob`; insert the
returned resource on success. -/
def Rutabaga.resource_create_blob (s : Rutabaga) (ctx_id resource_id : Nat)
    (resource_create_blob : ResourceCreateBlob) (iovecs : Option (List RutabagaIovec))
    (handle : Option RutabagaHandle) : RutabagaResult Unit × Rutabaga :=
  if mcontains s.resources resource_id then
    (.error .InvalidResourceId, s)
  else
    match mfind? s.components s.default_component with
    | none => (.error .InvalidComponent, s)
    | some component =>
      let context_lookup : RutabagaResult (Option RutabagaContext) :=
        if ctx_id > 0 then
          match mfind? s.contexts ctx_id with
          | none => .error .InvalidContextId
          | some ctx =>
            if ctx.component_type = RutabagaComponentType.CrossDomain then
              .ok (some ctx)
            else
              .ok none
        else
          .ok none
      match context_lookup with
      | .error e => (.error e, s)
      | .ok context =>
        let created : RutabagaResult RutabagaResource :=
          match context with
          | some ctx => ctx.context_create_blob resource_id resource_create_blob handle
          | none =>
            component.create_blob ctx_id resource_id resource_create_blob iovecs handle
        match created with
        | .error e => (.error e, s)
        | .ok resource =>
          (.ok (), { s with resources := minsert s.resources resource_id resource })

/-- `Rutabaga::export_blob`: compute the shareability of the resource from its
blob flags (or from it not being a blob), take the handle out of the resource,
then either clone it and put the original back (shareable) or move the sole
strong reference out (`InvalidRutabagaHandle` when other strong references are
outstanding). -/
def Rutabaga.export_blob (s : Rutabaga) (resource_id : Nat) :
    RutabagaResult RutabagaHandle × Rutabaga :=
  match mfind? s.resources resource_id with
  | none => (.error .InvalidResourceId, s)
  | some resource =>
    let share_mask := RUTABAGA_BLOB_FLAG_USE_SHAREABLE ||| RUTABAGA_BLOB_FLAG_USE_CROSS_DEVICE
    let shareable := (resource.blob_flags &&& share_mask != 0) || !resource.blob
    let opt := resource.handle
    let resource := { resource with handle := none }
    match opt, shareable with
    | some handle, true =>
      match handle.handle.try_clone with
      | .ok clone =>
        let resource := { resource with handle := some handle }
        (.ok clone, { s with resources := mupdate s.resources resource_id resource })
      | .error e =>
        (.error e, { s with resources := mupdate s.resources resource_id resource })
    | some handle, false =>
      match Arc.try_unwrap handle with
      | .ok hnd =>
        (.ok hnd, { s with resources := mupdate s.resources resource_id resource })
      | .error _ =>
        (.error .InvalidRutabagaHandle,
         { s with resources := mupdate s.resources resource_id resource })
    | none, _ =>
      (.error .InvalidRutabagaHandle,
       { s with resources := mupdate s.resources resource_id resource })

/-- The part of `Rutabaga::create_context` past component-type resolution:
resolve the component, reject a duplicate context id, delegate context
creation, and insert the returned context on success. -/
def Rutabaga.create_context_with_component (s : Rutabaga)
    (component_type : RutabagaComponentType) (ctx_id context_init : Nat)
    (context_name : Option String) : RutabagaResult Unit × Rutabaga :=
  match mfind? s.components component_type with
  | none => (.error .InvalidComponent, s)
  | some component =>
    if mcontains s.contexts ctx_id then
      (.error .InvalidContextId, s)
    else
      match component.create_context ctx_id context_init context_name s.fence_handler with
      | .error e => (.error e, s)
      | .ok ctx =>
        (.ok (), { s with contexts := minsert s.contexts ctx_id ctx })

/-- `Rutabaga::create_context`: extract the capset id from the low bits of
`context_init`, resolve the component type through the catalog falling back to
the default component, then create the context through that component. -/
def Rutabaga.create_context (s : Rutabaga) (ctx_id context_init : Nat)
    (context_name : Option String) : RutabagaResult Unit × Rutabaga :=
  let capset_id := context_init &&& RUTABAGA_CONTEXT_INIT_CAPSET_ID_MASK
  let component_type :=
    match s.capset_id_to_component_type capset_id with
    | .ok t => t
    | .error _ => s.default_component
  s.create_context_with_component component_type ctx_id context_init context_name

/-- `Rutabaga::destroy_context`. -/
def Rutabaga.destroy_context (s : Rutabaga) (ctx_id : Nat) :
    RutabagaResult Unit × Rutabaga :=
  match mfind? s.contexts ctx_id with
  | none => (.error .InvalidContextId, s)
  | some _ => (.ok (), { s with contexts := mremove s.contexts ctx_id })

/-- Well-formedness of an orchestrator: the configured default component is
instantiated, and so is the owning component of every catalog entry.  Every
orchestrator produced by `RutabagaBuilder.build` satisfies this. -/
def Rutabaga.WF (s : Rutabaga) : Prop :=
  (mfind? s.components s.default_component).isSome = true ∧
    ∀ capset ∈ s.capset_info, (mfind? s.components capset.component).isSome = true

/-- Modelled from the spec: the feature flag bundle the builder configures for
the gfxstream backend (`GfxstreamFlags` in `rutabaga_utils.rs`); its contents
are opaque to the orchestrator. -/
structure GfxstreamFlags where
  async_fence_cb : Bool
deriving DecidableEq, Repr

/-- `GfxstreamFlags::new`. -/
def GfxstreamFlags.new : GfxstreamFlags :=
  { async_fence_cb := false }

/-- `GfxstreamFlags::use_async_fence_cb`. -/
def GfxstreamFlags.use_async_fence_cb (f : GfxstreamFlags) (v : Bool) : GfxstreamFlags :=
  { f with async_fence_cb := v }

/-- Modelled from the spec: the feature flag bundle the builder configures for
the virglrenderer backend (`VirglRendererFlags` in `rutabaga_utils.rs`). -/
structure VirglRendererFlags where
  thread_sync : Bool
  async_fence_cb : Bool
  virgl : Bool
  venus : Bool
  drm : Bool
deriving DecidableEq, Repr

/-- `VirglRendererFlags::new`. -/
def VirglRendererFlags.new : VirglRendererFlags :=
  { thread_sync := false, async_fence_cb := false, virgl := false, venus := false, drm := false }

/-- `VirglRendererFlags::use_thread_sync`. -/
def VirglRendererFlags.use_thread_sync (f : VirglRendererFlags) (v : Bool) : VirglRendererFlags :=
  { f with thread_sync := v }

/-- `VirglRendererFlags::use_async_fence_cb`. -/
def VirglRendererFlags.use_async_fence_cb (f : VirglRendererFlags) (v : Bool) :
    VirglRendererFlags :=
  { f with async_fence_cb := v }

/-- `VirglRendererFlags::use_virgl`. -/
def VirglRendererFlags.use_virgl (f : VirglRendererFlags) (v : Bool) : VirglRendererFlags :=
  { f with virgl := v }

/-- `VirglRendererFlags::use_venus`. -/
def VirglRendererFlags.use_venus (f : VirglRendererFlags) (v : Bool) : VirglRendererFlags :=
  { f with venus := v }

/-- `VirglRendererFlags::use_drm`. -/
def VirglRendererFlags.use_drm (f : VirglRendererFlags) (v : Bool) : VirglRendererFlags :=
  { f with drm := v }

/-- The compile-time configuration the source expresses through `cfg`
attributes: which backend features are compiled in and whether the target OS
is fuchsia. -/
structure BuildFeatures where
  virgl_renderer : Bool
  gfxstream : Bool
  target_fuchsia : Bool
deriving DecidableEq, Repr

/-- The default-method behaviour of the `RutabagaComponent` trait: every
operation with a default is the documented "unsupported/no-op" fallback. -/
def traitDefaultComponent : RutabagaComponent :=
  { get_capset_info := fun _ => (0, 0)
  , get_capset := fun _ _ => []
  , create_fence_result := fun _ => .ok ()
  , create_3d := fun resource_id _ =>
      .ok { resource_id := resource_id
          , handle := none
          , blob := false
          , blob_mem := 0
          , blob_flags := 0
          , map_info := none
          , info_2d := none
          , info_3d := none
          , vulkan_info := none
          , backing_iovecs := none
          , import_mask := 0 }
  , create_blob := fun _ _ _ _ _ => .error .Unsupported
  , create_context := fun _ _ _ _ => .error .Unsupported
  , fences_received := []
  , unref_calls := [] }

/-- Modelled from the spec: the trivial 2D component (`rutabaga_2d.rs` is not
among the provided sources); construction always succeeds and the component
keeps the trait defaults the orchestrator-level claims depend on. -/
def Rutabaga2D.init (_fence_handler : RutabagaFenceHandler) :
    RutabagaResult RutabagaComponent :=
  .ok traitDefaultComponent

/-- Modelled from the spec: the virglrenderer component (`virgl_renderer.rs`
is not among the provided sources); construction is modelled as succeeding. -/
def VirglRenderer.init (_flags : VirglRendererFlags)
    (_fence_handler : RutabagaFenceHandler) (_render_server_fd : Option Nat) :
    RutabagaResult RutabagaComponent :=
  .ok traitDefaultComponent

/-- Modelled from the spec: the gfxstream component (`gfxstream.rs` is not
among the provided sources); construction is modelled as succeeding. -/
def Gfxstream.init (_display_width _display_height : Nat) (_flags : GfxstreamFlags)
    (_fence_handler : RutabagaFenceHandler) : RutabagaResult RutabagaComponent :=
  .ok traitDefaultComponent

/-- Modelled from the spec: the cross-domain channel component
(`cross_domain.rs` is not among the provided sources); construction is
modelled as succeeding. -/
def CrossDomain.init (_channels : Option (List RutabagaChannel)) :
    RutabagaResult RutabagaComponent :=
  .ok traitDefaultComponent

/-- `RutabagaBuilder`. -/
structure RutabagaBuilder where
  display_width : Option Nat
  display_height : Option Nat
  default_component : RutabagaComponentType
  gfxstream_flags : GfxstreamFlags
  virglrenderer_flags : VirglRendererFlags
  context_mask : Nat
  channels : Option (List RutabagaChannel)

/-- `RutabagaBuilder::new`. -/
def RutabagaBuilder.new (default_component : RutabagaComponentType) (context_mask : Nat) :
    RutabagaBuilder :=
  { display_width := none
  , display_height := none
  , default_component := default_component
  , gfxstream_flags := GfxstreamFlags.new.use_async_fence_cb true
  , virglrenderer_flags :=
      (VirglRendererFlags.new.use_thread_sync true).use_async_fence_cb true
  , context_mask := context_mask
  , channels := none }

/-- The `capset_enabled` closure of `RutabagaBuilder::build`: is the capset's
bit set in the requested context mask. -/
def RutabagaBuilder.capset_enabled (b : RutabagaBuilder) (capset_id : Nat) : Bool :=
  b.context_mask &&& (1 <<< capset_id) != 0

/-- The `push_capset` closure of `RutabagaBuilder::build`: append the catalog
entry of the capset id when its bit is enabled (or unconditionally when no
mask was requested). -/
def RutabagaBuilder.push_capset (b : RutabagaBuilder)
    (rutabaga_capsets : List RutabagaCapsetInfo) (capset_id : Nat) :
    List RutabagaCapsetInfo :=
  match RUTABAGA_CAPSETS.find? (fun capset => capset.capset_id == capset_id) with
  | some capset =>
    if b.context_mask != 0 then
      if b.capset_enabled capset.capset_id then
        rutabaga_capsets ++ [capset]
      else
        rutabaga_capsets
    else
      rutabaga_capsets ++ [capset]
  | none => rutabaga_capsets

/-- The 3D-mode component-assembly section of `RutabagaBuilder::build` (the
branch taken when the default component is not the 2D one): instantiate the
virglrenderer and/or gfxstream component when it is the default and its
feature is compiled in, and — on every target but fuchsia — the cross-domain
component, accumulating the catalog entries pushed alongside. -/
def RutabagaBuilder.build_3d_components (b : RutabagaBuilder) (feat : BuildFeatures)
    (fence_handler : RutabagaFenceHandler) :
    RutabagaResult
      (List (RutabagaComponentType × RutabagaComponent) × List RutabagaCapsetInfo) :=
  let step_virgl :
      RutabagaResult
        (List (RutabagaComponentType × RutabagaComponent) × List RutabagaCapsetInfo) :=
    if feat.virgl_renderer && b.default_component == RutabagaComponentType.VirglRenderer then
      match VirglRenderer.init b.virglrenderer_flags fence_handler none with
      | .error e => .error e
      | .ok virgl =>
        .ok (minsert [] RutabagaComponentType.VirglRenderer virgl,
             b.push_capset
               (b.push_capset (b.push_capset (b.push_capset [] RUTABAGA_CAPSET_VIRGL)
                   RUTABAGA_CAPSET_VIRGL2)
                 RUTABAGA_CAPSET_VENUS)
               RUTABAGA_CAPSET_DRM)
    else
      .ok ([], [])
  match step_virgl with
  | .error e => .error e
  | .ok (comps1, caps1) =>
    let step_gfxstream :
        RutabagaResult
          (List (RutabagaComponentType × RutabagaComponent) × List RutabagaCapsetInfo) :=
      if feat.gfxstream && b.default_component == RutabagaComponentType.Gfxstream then
        match b.display_width with
        | none => .error (RutabagaError.InvalidRutabagaBuild "missing display width")
        | some display_width =>
          match b.display_height with
          | none => .error (RutabagaError.InvalidRutabagaBuild "missing display height")
          | some display_height =>
            match Gfxstream.init display_width display_height b.gfxstream_flags
                fence_handler with
            | .error e => .error e
            | .ok gfxstream =>
              .ok (minsert comps1 RutabagaComponentType.Gfxstream gfxstream,
                   b.push_capset caps1 RUTABAGA_CAPSET_GFXSTREAM)
      else
        .ok (comps1, caps1)
    match step_gfxstream with
    | .error e => .error e
    | .ok (comps2, caps2) =>
      let step_cross_domain :
          RutabagaResult
            (List (RutabagaComponentType × RutabagaComponent) × List RutabagaCapsetInfo) :=
        if !feat.target_fuchsia then
          match CrossDomain.init b.channels with
          | .error e => .error e
          | .ok cross_domain =>
            .ok (minsert comps2 RutabagaComponentType.CrossDomain cross_domain,
                 b.push_capset caps2 RUTABAGA_CAPSET_CROSS_DOMAIN)
        else
          .ok (comps2, caps2)
      step_cross_domain

/-- `RutabagaBuilder::build`: if a nonzero context mask was supplied, infer a
revised default component (gfxstream, else virglrenderer, else cross-domain)
from the enabled capset bits; reject a default component whose feature is not
compiled in; instantiate the needed components and populate the catalog with
the entries whose bit is enabled (or all entries of an instantiated component
when the mask is zero); return the orchestrator with empty registries. -/
def RutabagaBuilder.build (b : RutabagaBuilder) (feat : BuildFeatures)
    (fence_handler : RutabagaFenceHandler) : RutabagaResult Rutabaga :=
  let capset_enabled : Nat → Bool := b.capset_enabled
  let b :=
    if b.context_mask != 0 then
      let supports_gfxstream := capset_enabled RUTABAGA_CAPSET_GFXSTREAM
      let supports_virglrenderer :=
        capset_enabled RUTABAGA_CAPSET_VIRGL2 || capset_enabled RUTABAGA_CAPSET_VENUS ||
          capset_enabled RUTABAGA_CAPSET_DRM
      let default_component :=
        if supports_gfxstream then
          RutabagaComponentType.Gfxstream
        else if supports_virglrenderer then
          RutabagaComponentType.VirglRenderer
        else
          RutabagaComponentType.CrossDomain
      { b with
          default_component := default_component
        , virglrenderer_flags :=
            ((b.virglrenderer_flags.use_virgl
                  (capset_enabled RUTABAGA_CAPSET_VIRGL2)).use_venus
                (capset_enabled RUTABAGA_CAPSET_VENUS)).use_drm
              (capset_enabled RUTABAGA_CAPSET_DRM) }
    else
      b
  if !feat.virgl_renderer && b.default_component == RutabagaComponentType.VirglRenderer then
    .error (.InvalidRutabagaBuild "virgl renderer feature not enabled")
  else if !feat.gfxstream && b.default_component == RutabagaComponentType.Gfxstream then
    .error (.InvalidRutabagaBuild "gfxstream feature not enabled")
  else if b.default_component == RutabagaComponentType.Rutabaga2D then
    match Rutabaga2D.init fence_handler with
    | .error e => .error e
    | .ok rutabaga_2d =>
      .ok { resources := []
          , contexts := []
          , components := [(RutabagaComponentType.Rutabaga2D, rutabaga_2d)]
          , default_component := b.default_component
          , capset_info := []
          , fence_handler := fence_handler }
  else
    match b.build_3d_components feat fence_handler with
    | .error e => .error e
    | .ok (comps3, caps3) =>
      .ok { resources := []
          , contexts := []
          , components := comps3
          , default_component := b.default_component
          , capset_info := caps3
          , fence_handler := fence_handler }

/-! Test fixtures: concrete states used by the witness theorems. -/

/-- A concrete fence handler. -/
def fh0 : RutabagaFenceHandler := { id := 0 }

/-- A concrete OS handle. -/
def testHandle : RutabagaHandle := { os_handle := 7, handle_type := 1 }

/-- A blob resource record returned by the test delegates. -/
def testBlobResource (resource_id : Nat) : RutabagaResource :=
  { resource_id := resource_id
  , handle := some { handle := testHandle, strong := 1 }
  , blob := true
  , blob_mem := 1
  , blob_flags := RUTABAGA_BLOB_FLAG_USE_SHAREABLE
  , map_info := some 1
  , info_2d := none
  , info_3d := none
  , vulkan_info := none
  , backing_iovecs := none
  , import_mask := 0 }

/-- A cross-domain test context that accepts blob creation and fences. -/
def testContextCD : RutabagaContext :=
  { component_type := RutabagaComponentType.CrossDomain
  , context_create_blob := fun resource_id _ _ => .ok (testBlobResource resource_id)
  , context_create_fence_result := fun _ => .ok ()
  , fences_received := [] }

/-- A test component whose creation operations all fail. -/
def failComponent : RutabagaComponent :=
  { traitDefaultComponent with create_3d := fun _ _ => .error .Unsupported }

/-- A concrete parameter struct for 3D creation. -/
def params3d : ResourceCreate3D :=
  { target := 2, format := 67, bind := 1, width := 64, height := 64, depth := 1 }

/-- A concrete parameter struct for blob creation. -/
def paramsBlob : ResourceCreateBlob :=
  { blob_mem := 1, blob_flags := 0, blob_id := 0, size := 4096 }

/-- A concrete orchestrator with the 2D default component and empty
registries. -/
def s2d : Rutabaga :=
  { resources := []
  , contexts := []
  , components := [(RutabagaComponentType.Rutabaga2D, traitDefaultComponent)]
  , default_component := RutabagaComponentType.Rutabaga2D
  , capset_info := []
  , fence_handler := fh0 }

/-- A shared handle with two outstanding strong references. -/
def arcShared : ArcRutabagaHandle := { handle := testHandle, strong := 2 }

/-- A handle whose registry reference is the sole strong reference. -/
def arcSole : ArcRutabagaHandle := { handle := testHandle, strong := 1 }

/-- A shareable blob resource holding a shared handle. -/
def resShareable : RutabagaResource :=
  { testBlobResource 5 with handle := some arcShared }

/-- A non-shareable blob resource holding a shared handle. -/
def resNonShareableShared : RutabagaResource :=
  { testBlobResource 6 with blob_flags := 0, handle := some arcShared }

/-- A non-shareable blob resource holding a solely-referenced handle. -/
def resNonShareableSole : RutabagaResource :=
  { testBlobResource 6 with blob_flags := 0, handle := some arcSole }

/-- An orchestrator whose registry holds the shareable resource at id 5. -/
def sExport : Rutabaga := { s2d with resources := [(5, resShareable)] }

/-- An orchestrator whose registry holds the shared non-shareable resource at
id 6. -/
def sExportConflict : Rutabaga := { s2d with resources := [(6, resNonShareableShared)] }

/-- An orchestrator whose default component rejects every creation
operation. -/
def sFail : Rutabaga := { s2d with components := [(RutabagaComponentType.Rutabaga2D, failComponent)] }

/-- An orchestrator whose registries already hold resource id 5 and context
id 9. -/
def sDup : Rutabaga :=
  { s2d with resources := [(5, resShareable)], contexts := [(9, testContextCD)] }

/-- An orchestrator with the cross-domain test context registered at id 9. -/
def sFence : Rutabaga := { s2d with contexts := [(9, testContextCD)] }

/-- A fence with the per-ring-index flag set, naming context 9. -/
def fenceRing : RutabagaFence :=
  { flags := RUTABAGA_FLAG_INFO_RING_IDX, fence_id := 1, ctx_id := 9, ring_idx := 0 }

/-- A fence with the per-ring-index flag set, naming the unregistered
context 4. -/
def fenceRingMissing : RutabagaFence :=
  { flags := RUTABAGA_FLAG_INFO_RING_IDX, fence_id := 1, ctx_id := 4, ring_idx := 0 }

/-- A fence without the per-ring-index flag. -/
def fenceGlobal : RutabagaFence :=
  { flags := 0, fence_id := 2, ctx_id := 0, ring_idx := 0 }

/-- An orchestrator whose instance catalog holds the cross-domain capset and
which instantiates both the 2D default and the cross-domain component. -/
def sCat : Rutabaga :=
  { s2d with
      components :=
        [ (RutabagaComponentType.Rutabaga2D, traitDefaultComponent)
        , (RutabagaComponentType.CrossDomain, traitDefaultComponent) ]
    , capset_info :=
        [ { capset_id := RUTABAGA_CAPSET_CROSS_DOMAIN
          , component := RutabagaComponentType.CrossDomain
          , name := "cross-domain" } ] }

/-- A builder requesting the 2D default with only the cross-domain capset bit
set in the context mask. -/
def b0 : RutabagaBuilder :=
  RutabagaBuilder.new RutabagaComponentType.Rutabaga2D (1 <<< RUTABAGA_CAPSET_CROSS_DOMAIN)

/-- A build configuration with every backend feature compiled in, not
targeting fuchsia. -/
def feat0 : BuildFeatures :=
  { virgl_renderer := true, gfxstream := true, target_fuchsia := false }

/-- The orchestrator `b0.build feat0 fh0` produces. -/
def r0 : Rutabaga :=
  { resources := []
  , contexts := []
  , components := [(RutabagaComponentType.CrossDomain, traitDefaultComponent)]
  , default_component := RutabagaComponentType.CrossDomain
  , capset_info :=
      [ { capset_id := RUTABAGA_CAPSET_CROSS_DOMAIN
        , component := RutabagaComponentType.CrossDomain
        , name := "cross-domain" } ]
  , fence_handler := fh0 }

/-! Helper lemmas about the registry representation and the bitmask
encoding. -/

theorem mfind?_mupdate_self {κ α : Type} [DecidableEq κ] (m : List (κ × α)) (k : κ) (v w : α)
    (h : mfind? m k = some w) : mfind? (mupdate m k v) k = some v := by
  induction m with
  | nil => simp [mfind?] at h
  | cons p rest ih =>
    obtain ⟨k', v'⟩ := p
    by_cases hk : k' = k
    · subst hk
      simp [mfind?, mupdate]
    · simp only [mfind?, if_neg hk] at h
      simpa [mfind?, mupdate, hk] using ih h

theorem testBit_context_mask_step (m : Nat) (n : String) (k : Nat) :
    Nat.testBit (context_mask_step m n) k = true ↔
      Nat.testBit m k = true ∨
        ∃ c, RUTABAGA_CAPSETS.find? (fun capset => capset.name == n) = some c ∧
          c.capset_id = k := by
  unfold context_mask_step
  cases hfind : RUTABAGA_CAPSETS.find? (fun capset => capset.name == n) with
  | none => simp
  | some c =>
    simp only [Nat.one_shiftLeft, Nat.testBit_or, Bool.or_eq_true, Nat.testBit_two_pow,
      decide_eq_true_eq, Option.some.injEq]
    constructor
    · rintro (h | h)
      · exact Or.inl h
      · exact Or.inr ⟨c, rfl, h⟩
    · rintro (h | ⟨c', hc', hk⟩)
      · exact Or.inl h
      · subst hc'
        exact Or.inr hk

theorem testBit_calculate_mask_aux (l : List String) (init k : Nat) :
    Nat.testBit (l.foldl context_mask_step init) k = true ↔
      Nat.testBit init k = true ∨
        ∃ n ∈ l, ∃ c, RUTABAGA_CAPSETS.find? (fun capset => capset.name == n) = some c ∧
          c.capset_id = k := by
  induction l generalizing init with
  | nil => simp
  | cons n l ih =>
    rw [List.foldl_cons, ih, testBit_context_mask_step]
    constructor
    · rintro ((h | ⟨c, hc, hk⟩) | ⟨n', hn', c, hc, hk⟩)
      · exact Or.inl h
      · exact Or.inr ⟨n, List.mem_cons_self n l, c, hc, hk⟩
      · exact Or.inr ⟨n', List.mem_cons_of_mem n hn', c, hc, hk⟩
    · rintro (h | ⟨n', hn', c, hc, hk⟩)
      · exact Or.inl (Or.inl h)
      · rcases List.mem_cons.mp hn' with rfl | hmem
        · exact Or.inl (Or.inr ⟨c, hc, hk⟩)
        · exact Or.inr ⟨n', hmem, c, hc, hk⟩

theorem and_one_shift_ne_zero (m k : Nat) :
    (m &&& (1 <<< k) != 0) = true ↔ Nat.testBit m k = true := by
  rw [Nat.one_shiftLeft, Nat.and_two_pow]
  cases h : Nat.testBit m k <;>
    simp [h, (Nat.two_pow_pos k).ne']

theorem capsets_capset_id_inj :
    ∀ c1 ∈ RUTABAGA_CAPSETS, ∀ c2 ∈ RUTABAGA_CAPSETS,
      c1.capset_id = c2.capset_id → c1 = c2 := by
  decide

theorem capsets_find?_name :
    ∀ c ∈ RUTABAGA_CAPSETS,
      RUTABAGA_CAPSETS.find? (fun capset => capset.name == c.name) = some c := by
  decide

/-! The claim theorems. -/

/-- C6: for every set of capability names drawn from the static capset
catalog, decoding the mask produced by encoding the set yields exactly the
same names, independently of order:
`calculate_context_types (calculate_context_mask S)` contains a name iff `S`
does. -/
theorem context_mask_roundtrip (context_names : List String)
    (hsub : ∀ n ∈ context_names, ∃ c ∈ RUTABAGA_CAPSETS, c.name = n) (name : String) :
    name ∈ calculate_context_types (calculate_context_mask context_names) ↔
      name ∈ context_names := by
  unfold calculate_context_types calculate_context_mask
  simp only [List.mem_map, List.mem_filter]
  constructor
  · rintro ⟨c, ⟨hcmem, hbit⟩, rfl⟩
    have htb := (and_one_shift_ne_zero _ c.capset_id).mp hbit
    rcases (testBit_calculate_mask_aux context_names 0 c.capset_id).mp htb with
      h0 | ⟨n, hn, c', hfind, hid⟩
    · simp at h0
    · have hc'mem : c' ∈ RUTABAGA_CAPSETS := List.mem_of_find?_eq_some hfind
      have hc'name : c'.name = n := by
        simpa using List.find?_some hfind
      have hcc : c' = c := capsets_capset_id_inj c' hc'mem c hcmem hid
      rw [← hcc, hc'name]
      exact hn
  · intro hname
    obtain ⟨c, hcmem, hcname⟩ := hsub name hname
    refine ⟨c, ⟨hcmem, ?_⟩, hcname⟩
    refine (and_one_shift_ne_zero _ c.capset_id).mpr ?_
    refine (testBit_calculate_mask_aux context_names 0 c.capset_id).mpr
      (Or.inr ⟨name, hname, c, ?_, rfl⟩)
    rw [← hcname]
    exact capsets_find?_name c hcmem

/-- C6 witness: the round trip evaluated on the concrete name set
`{venus, virgl}`. -/
theorem context_mask_roundtrip_witness :
    (∀ n ∈ ["venus", "virgl"], ∃ c ∈ RUTABAGA_CAPSETS, c.name = n) ∧
      ("venus" ∈ calculate_context_types (calculate_context_mask ["venus", "virgl"]) ↔
        "venus" ∈ ["venus", "virgl"]) :=
  ⟨by decide, context_mask_roundtrip ["venus", "virgl"] (by decide) "venus"⟩

/-- The first branch of `export_blob` computed: exporting a shareable
resource returns a clone and puts the original handle back. -/
theorem export_blob_shareable_eq (s : Rutabaga) (r : Nat) (res : RutabagaResource)
    (arc : ArcRutabagaHandle) (hr : mfind? s.resources r = some res)
    (hh : res.handle = some arc)
    (hb : ((res.blob_flags &&&
        (RUTABAGA_BLOB_FLAG_USE_SHAREABLE ||| RUTABAGA_BLOB_FLAG_USE_CROSS_DEVICE) != 0) ||
        !res.blob) = true) :
    s.export_blob r =
      (.ok arc.handle,
       { s with resources := mupdate s.resources r { res with handle := some arc } }) := by
  unfold Rutabaga.export_blob
  rw [hr]
  simp only [hh, hb, RutabagaHandle.try_clone]

/-- The second branch of `export_blob` computed: a non-shareable resource
whose handle is the sole strong reference is exported by moving the handle
out. -/
theorem export_blob_exclusive_eq (s : Rutabaga) (r : Nat) (res : RutabagaResource)
    (arc : ArcRutabagaHandle) (hr : mfind? s.resources r = some res)
    (hh : res.handle = some arc)
    (hb : ((res.blob_flags &&&
        (RUTABAGA_BLOB_FLAG_USE_SHAREABLE ||| RUTABAGA_BLOB_FLAG_USE_CROSS_DEVICE) != 0) ||
        !res.blob) = false)
    (hs : arc.strong = 1) :
    s.export_blob r =
      (.ok arc.handle,
       { s with resources := mupdate s.resources r { res with handle := none } }) := by
  unfold Rutabaga.export_blob
  rw [hr]
  simp only [hh, hb, Arc.try_unwrap, hs, if_pos]

/-- The conflict branch of `export_blob` computed: a non-shareable resource
whose handle has other strong references fails, with the handle nevertheless
taken out of the resource. -/
theorem export_blob_conflict_eq (s : Rutabaga) (r : Nat) (res : RutabagaResource)
    (arc : ArcRutabagaHandle) (hr : mfind? s.resources r = some res)
    (hh : res.handle = some arc)
    (hb : ((res.blob_flags &&&
        (RUTABAGA_BLOB_FLAG_USE_SHAREABLE ||| RUTABAGA_BLOB_FLAG_USE_CROSS_DEVICE) != 0) ||
        !res.blob) = false)
    (hs : arc.strong ≠ 1) :
    s.export_blob r =
      (.error .InvalidRutabagaHandle,
       { s with resources := mupdate s.resources r { res with handle := none } }) := by
  unfold Rutabaga.export_blob
  rw [hr]
  simp only [hh, hb, Arc.try_unwrap, hs, if_neg, if_false]

/-- Putting an unchanged handle back into a resource record reproduces the
resource. -/
theorem resource_put_back (res : RutabagaResource) (arc : ArcRutabagaHandle)
    (hh : res.handle = some arc) : { res with handle := some arc } = res := by
  cases res
  subst hh
  rfl

/-- C1: for every registered resource holding a handle: if the resource is
shareable (shareable-use or cross-device-use blob flag set, or not a blob),
`export_blob` succeeds with a clone of the handle and puts the original back;
if it is not shareable and the registry holds the sole strong reference,
`export_blob` succeeds by moving the handle out; if it is not shareable and
another strong reference is outstanding, `export_blob` fails with the
invalid-handle ownership-conflict error. -/
theorem export_blob_ownership (s : Rutabaga) (r : Nat) (res : RutabagaResource)
    (arc : ArcRutabagaHandle) (hr : mfind? s.resources r = some res)
    (hh : res.handle = some arc) :
    ((res.blob_flags &&&
          (RUTABAGA_BLOB_FLAG_USE_SHAREABLE ||| RUTABAGA_BLOB_FLAG_USE_CROSS_DEVICE) ≠ 0 ∨
        res.blob = false) →
      (s.export_blob r).1 = .ok arc.handle ∧
        mfind? (s.export_blob r).2.resources r = some res) ∧
    (res.blob_flags &&&
        (RUTABAGA_BLOB_FLAG_USE_SHAREABLE ||| RUTABAGA_BLOB_FLAG_USE_CROSS_DEVICE) = 0 →
      res.blob = true →
      (arc.strong = 1 →
        (s.export_blob r).1 = .ok arc.handle ∧
          mfind? (s.export_blob r).2.resources r = some { res with handle := none }) ∧
      (1 < arc.strong →
        (s.export_blob r).1 = .error .InvalidRutabagaHandle)) := by
  constructor
  · intro hsh
    have hb : ((res.blob_flags &&&
        (RUTABAGA_BLOB_FLAG_USE_SHAREABLE ||| RUTABAGA_BLOB_FLAG_USE_CROSS_DEVICE) != 0) ||
        !res.blob) = true := by
      rcases hsh with h | h
      · simp [h]
      · simp [h]
    rw [export_blob_shareable_eq s r res arc hr hh hb]
    refine ⟨rfl, ?_⟩
    rw [resource_put_back res arc hh]
    exact mfind?_mupdate_self s.resources r res res hr
  · intro hflags hblob
    have hb : ((res.blob_flags &&&
        (RUTABAGA_BLOB_FLAG_USE_SHAREABLE ||| RUTABAGA_BLOB_FLAG_USE_CROSS_DEVICE) != 0) ||
        !res.blob) = false := by
      simp [hflags, hblob]
    constructor
    · intro hs
      rw [export_blob_exclusive_eq s r res arc hr hh hb hs]
      exact ⟨rfl, mfind?_mupdate_self s.resources r _ res hr⟩
    · intro hs
      rw [export_blob_conflict_eq s r res arc hr hh hb (Nat.ne_of_gt hs)]

/-- C1 witness: the three export regimes evaluated on concrete resources — a
shareable blob with a shared handle at id 5 and a non-shareable blob at
id 6. -/
theorem export_blob_ownership_witness :
    (mfind? sExport.resources 5 = some resShareable ∧
      resShareable.handle = some arcShared ∧
      (sExport.export_blob 5).1 = .ok arcShared.handle ∧
      mfind? (sExport.export_blob 5).2.resources 5 = some resShareable) ∧
    (mfind? sExportConflict.resources 6 = some resNonShareableShared ∧
      resNonShareableShared.handle = some arcShared ∧ 1 < arcShared.strong ∧
      (sExportConflict.export_blob 6).1 = .error .InvalidRutabagaHandle) := by
  refine ⟨⟨rfl, rfl, ?_⟩, rfl, rfl, by decide, ?_⟩
  · exact (export_blob_ownership sExport 5 resShareable arcShared rfl rfl).1
      (Or.inl (by decide))
  · exact ((export_blob_ownership sExportConflict 6 resNonShareableShared arcShared rfl
      rfl).2 (by decide) (by decide)).2 (by decide)

/-- C9: for a non-shareable blob resource whose handle has more than one
outstanding strong reference, `export_blob` fails with the invalid-handle
error yet still removes the handle from the resource, so a subsequent
`export_blob` on the same resource also fails: the failed export does not
leave the resource unchanged. -/
theorem export_blob_conflict_removes_handle (s : Rutabaga) (r : Nat)
    (res : RutabagaResource) (arc : ArcRutabagaHandle)
    (hr : mfind? s.resources r = some res) (hh : res.handle = some arc)
    (hblob : res.blob = true)
    (hflags : res.blob_flags &&&
      (RUTABAGA_BLOB_FLAG_USE_SHAREABLE ||| RUTABAGA_BLOB_FLAG_USE_CROSS_DEVICE) = 0)
    (hs : 1 < arc.strong) :
    (s.export_blob r).1 = .error .InvalidRutabagaHandle ∧
      mfind? (s.export_blob r).2.resources r = some { res with handle := none } ∧
      ((s.export_blob r).2.export_blob r).1 = .error .InvalidRutabagaHandle := by
  have hb : ((res.blob_flags &&&
      (RUTABAGA_BLOB_FLAG_USE_SHAREABLE ||| RUTABAGA_BLOB_FLAG_USE_CROSS_DEVICE) != 0) ||
      !res.blob) = false := by
    simp [hflags, hblob]
  rw [export_blob_conflict_eq s r res arc hr hh hb (Nat.ne_of_gt hs)]
  have hfind : mfind?
      (mupdate s.resources r { res with handle := none }) r =
      some { res with handle := none } :=
    mfind?_mupdate_self s.resources r _ res hr
  refine ⟨rfl, hfind, ?_⟩
  unfold Rutabaga.export_blob
  rw [hfind]

/-- C9 witness: the conflict export evaluated at resource id 6 of the
concrete orchestrator; the handle disappears and the second export fails
too. -/
theorem export_blob_conflict_removes_handle_witness :
    mfind? sExportConflict.resources 6 = some resNonShareableShared ∧
      1 < arcShared.strong ∧
      (sExportConflict.export_blob 6).1 = .error .InvalidRutabagaHandle ∧
      mfind? (sExportConflict.export_blob 6).2.resources 6 =
        some { resNonShareableShared with handle := none } ∧
      ((sExportConflict.export_blob 6).2.export_blob 6).1 =
        .error .InvalidRutabagaHandle := by
  have h := export_blob_conflict_removes_handle sExportConflict 6 resNonShareableShared
    arcShared rfl rfl (by decide) (by decide) (by decide)
  exact ⟨rfl, by decide, h.1, h.2.1, h.2.2⟩

/-- On any error result, `resource_create_3d` leaves the state unchanged. -/
theorem resource_create_3d_error_state (s : Rutabaga) (rid : Nat) (p : ResourceCreate3D)
    (e : RutabagaError) :
    (s.resource_create_3d rid p).1 = .error e → (s.resource_create_3d rid p).2 = s := by
  unfold Rutabaga.resource_create_3d
  repeat' split
  all_goals intro h
  all_goals first | rfl | simp at h

/-- On any error result, `resource_create_blob` leaves the state unchanged. -/
theorem resource_create_blob_error_state (s : Rutabaga) (ctx_id rid : Nat)
    (p : ResourceCreateBlob) (iovecs : Option (List RutabagaIovec))
    (handle : Option RutabagaHandle) (e : RutabagaError) :
    (s.resource_create_blob ctx_id rid p iovecs handle).1 = .error e →
      (s.resource_create_blob ctx_id rid p iovecs handle).2 = s := by
  unfold Rutabaga.resource_create_blob
  dsimp only
  repeat' split
  all_goals intro h
  all_goals first | rfl | simp at h

/-- On any error result, `create_context` leaves the state unchanged. -/
theorem create_context_error_state (s : Rutabaga) (ctx_id context_init : Nat)
    (context_name : Option String) (e : RutabagaError) :
    (s.create_context ctx_id context_init context_name).1 = .error e →
      (s.create_context ctx_id context_init context_name).2 = s := by
  unfold Rutabaga.create_context Rutabaga.create_context_with_component
  dsimp only
  repeat' split
  all_goals intro h
  all_goals first | rfl | simp at h

/-- The component type `create_context` resolves (catalog lookup with default
fallback) is always instantiated in a well-formed orchestrator. -/
theorem resolved_component_isSome (s : Rutabaga) (hwf : s.WF) (capset_id : Nat) :
    (mfind? s.components
      (match s.capset_id_to_component_type capset_id with
       | .ok t => t
       | .error _ => s.default_component)).isSome = true := by
  unfold Rutabaga.capset_id_to_component_type
  cases hfind : s.capset_info.find? (fun capset_info => capset_info.capset_id == capset_id) with
  | none => exact hwf.1
  | some ci => exact hwf.2 ci (List.mem_of_find?_eq_some hfind)

/-- C2: on a well-formed orchestrator, a creation operation whose delegated
component or context call (or any earlier check) fails inserts nothing: the
state is unchanged; and `unref_resource` on an unregistered id fails with the
not-found error without invoking the component (the state, including the
component's call log, is unchanged). -/
theorem create_failure_inserts_nothing (s : Rutabaga) (hwf : s.WF) :
    (∀ resource_id p e, (s.resource_create_3d resource_id p).1 = .error e →
        (s.resource_create_3d resource_id p).2 = s) ∧
    (∀ ctx_id resource_id p iovecs handle e,
        (s.resource_create_blob ctx_id resource_id p iovecs handle).1 = .error e →
          (s.resource_create_blob ctx_id resource_id p iovecs handle).2 = s) ∧
    (∀ ctx_id context_init context_name e,
        (s.create_context ctx_id context_init context_name).1 = .error e →
          (s.create_context ctx_id context_init context_name).2 = s) ∧
    (∀ resource_id, mfind? s.resources resource_id = none →
        s.unref_resource resource_id = (.error .InvalidResourceId, s)) := by
  refine ⟨fun rid p e => resource_create_3d_error_state s rid p e,
    fun ctx_id rid p iovecs handle e =>
      resource_create_blob_error_state s ctx_id rid p iovecs handle e,
    fun ctx_id ci name e => create_context_error_state s ctx_id ci name e, ?_⟩
  intro rid hr
  obtain ⟨comp, hcomp⟩ := Option.isSome_iff_exists.mp hwf.1
  unfold Rutabaga.unref_resource
  rw [hcomp, hr]

/-- C2 witness: on a concrete orchestrator whose component rejects every
creation, failed creates leave the state unchanged and unref of an
unregistered id fails without reaching the component. -/
theorem create_failure_inserts_nothing_witness :
    (sFail.resource_create_3d 5 params3d).1 = .error .Unsupported ∧
    (sFail.resource_create_3d 5 params3d).2 = sFail ∧
    (sFail.resource_create_blob 0 5 paramsBlob none none).1 = .error .Unsupported ∧
    (sFail.resource_create_blob 0 5 paramsBlob none none).2 = sFail ∧
    (sFail.create_context 9 0 none).1 = .error .Unsupported ∧
    (sFail.create_context 9 0 none).2 = sFail ∧
    mfind? sFail.resources 5 = none ∧
    sFail.unref_resource 5 = (.error .InvalidResourceId, sFail) := by
  have hwf : sFail.WF := ⟨rfl, by simp [sFail, s2d]⟩
  have h := create_failure_inserts_nothing sFail hwf
  exact ⟨rfl, h.1 5 params3d .Unsupported rfl, rfl,
    h.2.1 0 5 paramsBlob none none .Unsupported rfl, rfl,
    h.2.2.1 9 0 none .Unsupported rfl, rfl, h.2.2.2 5 rfl⟩

/-- C5: on a well-formed orchestrator, creating a resource (3D or blob) under
an id already present in the resource registry, or a context under an id
already present in the context registry, fails with the duplicate-id error
(the source spells already-exists as `InvalidResourceId` and
`InvalidContextId`) and leaves the whole state unchanged. -/
theorem duplicate_id_creates_fail (s : Rutabaga) (hwf : s.WF) :
    (∀ resource_id p res, mfind? s.resources resource_id = some res →
        s.resource_create_3d resource_id p = (.error .InvalidResourceId, s)) ∧
    (∀ ctx_id resource_id p iovecs handle res,
        mfind? s.resources resource_id = some res →
          s.resource_create_blob ctx_id resource_id p iovecs handle =
            (.error .InvalidResourceId, s)) ∧
    (∀ ctx_id context_init context_name ctx, mfind? s.contexts ctx_id = some ctx →
        s.create_context ctx_id context_init context_name =
          (.error .InvalidContextId, s)) := by
  obtain ⟨comp, hcomp⟩ := Option.isSome_iff_exists.mp hwf.1
  refine ⟨?_, ?_, ?_⟩
  · intro rid p res hr
    unfold Rutabaga.resource_create_3d
    rw [hcomp]
    simp [mcontains, hr]
  · intro ctx_id rid p iovecs handle res hr
    unfold Rutabaga.resource_create_blob
    simp [mcontains, hr]
  · intro ctx_id ci name ctx hctx
    obtain ⟨comp2, hcomp2⟩ := Option.isSome_iff_exists.mp
      (resolved_component_isSome s hwf (ci &&& RUTABAGA_CONTEXT_INIT_CAPSET_ID_MASK))
    unfold Rutabaga.create_context Rutabaga.create_context_with_component
    dsimp only
    rw [hcomp2]
    simp [mcontains, hctx]

/-- C5 witness: duplicate creates evaluated on a concrete orchestrator whose
registries hold resource id 5 and context id 9. -/
theorem duplicate_id_creates_fail_witness :
    mfind? sDup.resources 5 = some resShareable ∧
    mfind? sDup.contexts 9 = some testContextCD ∧
    sDup.resource_create_3d 5 params3d = (.error .InvalidResourceId, sDup) ∧
    sDup.resource_create_blob 0 5 paramsBlob none none =
      (.error .InvalidResourceId, sDup) ∧
    sDup.create_context 9 0 none = (.error .InvalidContextId, sDup) := by
  have hwf : sDup.WF := ⟨rfl, by simp [sDup, s2d]⟩
  have h := duplicate_id_creates_fail sDup hwf
  exact ⟨rfl, rfl, h.1 5 params3d resShareable rfl,
    h.2.1 0 5 paramsBlob none none resShareable rfl, h.2.2 9 0 none testContextCD rfl⟩

/-- C3: a fence whose flags include the per-ring-index bit is delivered to
the context named by its `ctx_id` — the components are untouched — and the
call fails with the context-not-found error when that context is absent; a
fence without the bit is delivered to the default component's `create_fence`
and no context is touched. -/
theorem create_fence_routing (s : Rutabaga) (fence : RutabagaFence) :
    (fence.flags &&& RUTABAGA_FLAG_INFO_RING_IDX ≠ 0 →
      (mfind? s.contexts fence.ctx_id = none →
        s.create_fence fence = (.error .InvalidContextId, s)) ∧
      (∀ ctx, mfind? s.contexts fence.ctx_id = some ctx →
        (s.create_fence fence).2.components = s.components ∧
        mfind? (s.create_fence fence).2.contexts fence.ctx_id =
          some { ctx with fences_received := ctx.fences_received ++ [fence] } ∧
        (s.create_fence fence).1 = ctx.context_create_fence_result fence)) ∧
    (fence.flags &&& RUTABAGA_FLAG_INFO_RING_IDX = 0 →
      (s.create_fence fence).2.contexts = s.contexts ∧
      (∀ comp, mfind? s.components s.default_component = some comp →
        mfind? (s.create_fence fence).2.components s.default_component =
          some { comp with fences_received := comp.fences_received ++ [fence] } ∧
        (s.create_fence fence).1 = comp.create_fence_result fence)) := by
  constructor
  · intro hflag
    have hb : (fence.flags &&& RUTABAGA_FLAG_INFO_RING_IDX != 0) = true := by
      simpa [bne_iff_ne] using hflag
    constructor
    · intro hctx
      unfold Rutabaga.create_fence
      simp only [hb, if_true]
      rw [hctx]
    · intro ctx hctx
      unfold Rutabaga.create_fence
      simp only [hb, if_true]
      rw [hctx]
      dsimp only
      cases hres : ctx.context_create_fence_result fence with
      | error e =>
        exact ⟨rfl, mfind?_mupdate_self s.contexts fence.ctx_id _ ctx hctx, rfl⟩
      | ok u =>
        exact ⟨rfl, mfind?_mupdate_self s.contexts fence.ctx_id _ ctx hctx, rfl⟩
  · intro hflag
    have hb : (fence.flags &&& RUTABAGA_FLAG_INFO_RING_IDX != 0) = false := by
      simp [hflag]
    unfold Rutabaga.create_fence
    simp only [hb, Bool.false_eq_true, if_false]
    constructor
    · cases hcomp : mfind? s.components s.default_component with
      | none => rfl
      | some comp =>
        dsimp only
        cases hres : comp.create_fence_result fence <;> rfl
    · intro comp hcomp
      rw [hcomp]
      dsimp only
      cases hres : comp.create_fence_result fence with
      | error e =>
        exact ⟨mfind?_mupdate_self s.components s.default_component _ comp hcomp, rfl⟩
      | ok u =>
        exact ⟨mfind?_mupdate_self s.components s.default_component _ comp hcomp, rfl⟩

/-- C3 witness: routing evaluated on the concrete orchestrator holding
context 9 — a ring fence reaches the context, a ring fence for the absent
context 4 fails with not-found, and a flagless fence reaches the 2D default
component. -/
theorem create_fence_routing_witness :
    (fenceRing.flags &&& RUTABAGA_FLAG_INFO_RING_IDX ≠ 0 ∧
      (sFence.create_fence fenceRing).2.components = sFence.components ∧
      mfind? (sFence.create_fence fenceRing).2.contexts 9 =
        some { testContextCD with fences_received := [fenceRing] } ∧
      (sFence.create_fence fenceRing).1 =
        testContextCD.context_create_fence_result fenceRing) ∧
    (mfind? sFence.contexts 4 = none ∧
      sFence.create_fence fenceRingMissing = (.error .InvalidContextId, sFence)) ∧
    (fenceGlobal.flags &&& RUTABAGA_FLAG_INFO_RING_IDX = 0 ∧
      (sFence.create_fence fenceGlobal).2.contexts = sFence.contexts ∧
      mfind? (sFence.create_fence fenceGlobal).2.components
          RutabagaComponentType.Rutabaga2D =
        some { traitDefaultComponent with fences_received := [fenceGlobal] } ∧
      (sFence.create_fence fenceGlobal).1 =
        traitDefaultComponent.create_fence_result fenceGlobal) := by
  have h1 := ((create_fence_routing sFence fenceRing).1 (by decide)).2 testContextCD rfl
  have h2 := ((create_fence_routing sFence fenceRingMissing).1 (by decide)).1 rfl
  have h3 := (create_fence_routing sFence fenceGlobal).2 (by decide)
  have h4 := h3.2 traitDefaultComponent rfl
  exact ⟨⟨by decide, h1.1, h1.2.1, h1.2.2⟩, ⟨rfl, h2⟩, ⟨by decide, h3.1, h4.1, h4.2⟩⟩

/-- C4: blob creation with a fresh resource id on an orchestrator whose
default component is instantiated: when a nonzero `ctx_id` names a registered
context of cross-domain component type, the blob is created by that context's
`context_create_blob`; otherwise (zero `ctx_id`, or a registered context of a
different type) by the default component's `create_blob`; either way, on
success the delegate's resource is inserted under the requested id. -/
theorem resource_create_blob_routing (s : Rutabaga) (ctx_id resource_id : Nat)
    (p : ResourceCreateBlob) (iovecs : Option (List RutabagaIovec))
    (handle : Option RutabagaHandle) (comp : RutabagaComponent)
    (hr : mfind? s.resources resource_id = none)
    (hcomp : mfind? s.components s.default_component = some comp) :
    (∀ ctx, 0 < ctx_id → mfind? s.contexts ctx_id = some ctx →
      ctx.component_type = RutabagaComponentType.CrossDomain →
      s.resource_create_blob ctx_id resource_id p iovecs handle =
        match ctx.context_create_blob resource_id p handle with
        | .ok resource =>
          (.ok (), { s with resources := minsert s.resources resource_id resource })
        | .error e => (.error e, s)) ∧
    ((ctx_id = 0 ∨ ∃ ctx, mfind? s.contexts ctx_id = some ctx ∧
        ctx.component_type ≠ RutabagaComponentType.CrossDomain) →
      s.resource_create_blob ctx_id resource_id p iovecs handle =
        match comp.create_blob ctx_id resource_id p iovecs handle with
        | .ok resource =>
          (.ok (), { s with resources := minsert s.resources resource_id resource })
        | .error e => (.error e, s)) := by
  have hcont : mcontains s.resources resource_id = false := by
    simp [mcontains, hr]
  constructor
  · intro ctx hpos hctx hcd
    unfold Rutabaga.resource_create_blob
    simp only [hcont, Bool.false_eq_true, if_false, hcomp]
    simp only [if_pos hpos, hctx, hcd, if_pos]
    cases hd : ctx.context_create_blob resource_id p handle <;> rfl
  · intro hother
    unfold Rutabaga.resource_create_blob
    simp only [hcont, Bool.false_eq_true, if_false, hcomp]
    rcases hother with rfl | ⟨ctx, hctx, hcd⟩
    · simp only [Nat.lt_irrefl, if_neg, if_false]
      cases hd : comp.create_blob 0 resource_id p iovecs handle <;> simp
    · have hpos2 : (0 < ctx_id) ∨ ¬(0 < ctx_id) := Decidable.em _
      rcases hpos2 with hpos | hpos
      · simp only [if_pos hpos, hctx, if_neg hcd]
        cases hd : comp.create_blob ctx_id resource_id p iovecs handle <;> rfl
      · simp only [if_neg hpos]
        cases hd : comp.create_blob ctx_id resource_id p iovecs handle <;> rfl

/-- C4 witness: with the cross-domain context 9 registered, blob creation at
the fresh id 7 through `ctx_id = 9` produces exactly the context delegate's
outcome, and through `ctx_id = 0` the component delegate's outcome. -/
theorem resource_create_blob_routing_witness :
    mfind? sFence.resources 7 = none ∧
    sFence.resource_create_blob 9 7 paramsBlob none none =
      (.ok (), { sFence with resources := minsert sFence.resources 7 (testBlobResource 7) }) ∧
    sFence.resource_create_blob 0 7 paramsBlob none none = (.error .Unsupported, sFence) := by
  have h := resource_create_blob_routing sFence 9 7 paramsBlob none none
    traitDefaultComponent rfl rfl
  have h0 := resource_create_blob_routing sFence 0 7 paramsBlob none none
    traitDefaultComponent rfl rfl
  refine ⟨rfl, ?_, ?_⟩
  · exact h.1 testContextCD (by decide) rfl rfl
  · exact h0.2 (Or.inl rfl)

/-- C10 counterexample: on a well-formed orchestrator whose registry already
holds resource id 5 and with no context registered under the nonzero
`ctx_id = 1`, `resource_create_blob` fails with `InvalidResourceId` — the
duplicate-id error — not with the context-not-found error the claim
predicts. -/
theorem resource_create_blob_missing_ctx_counterexample :
    (1 : Nat) ≠ 0 ∧ mfind? sDup.contexts 1 = none ∧
      (sDup.resource_create_blob 1 5 paramsBlob none none).1 = .error .InvalidResourceId ∧
      (sDup.resource_create_blob 1 5 paramsBlob none none).1 ≠ .error .InvalidContextId := by
  refine ⟨by decide, rfl, rfl, ?_⟩
  intro h
  exact absurd (Except.error.inj h) (by decide)

/-- C10 amended: on a well-formed orchestrator and with the resource id not
yet registered, `resource_create_blob` with a nonzero `ctx_id` naming no
registered context fails with the context-not-found error and inserts
nothing: the state is unchanged. -/
theorem resource_create_blob_missing_ctx_amended (s : Rutabaga) (hwf : s.WF)
    (ctx_id resource_id : Nat) (p : ResourceCreateBlob)
    (iovecs : Option (List RutabagaIovec)) (handle : Option RutabagaHandle)
    (hr : mfind? s.resources resource_id = none) (hpos : 0 < ctx_id)
    (hctx : mfind? s.contexts ctx_id = none) :
    s.resource_create_blob ctx_id resource_id p iovecs handle =
      (.error .InvalidContextId, s) := by
  obtain ⟨comp, hcomp⟩ := Option.isSome_iff_exists.mp hwf.1
  have hcont : mcontains s.resources resource_id = false := by
    simp [mcontains, hr]
  unfold Rutabaga.resource_create_blob
  simp only [hcont, Bool.false_eq_true, if_false, hcomp]
  simp only [if_pos hpos, hctx]

/-- C10 amended witness: blob creation with `ctx_id = 1` (unregistered) and
the fresh resource id 7 on the concrete orchestrator fails with
context-not-found, leaving the state unchanged. -/
theorem resource_create_blob_missing_ctx_amended_witness :
    mfind? s2d.resources 7 = none ∧ (0 : Nat) < 1 ∧ mfind? s2d.contexts 1 = none ∧
      s2d.resource_create_blob 1 7 paramsBlob none none =
        (.error .InvalidContextId, s2d) := by
  have hwf : s2d.WF := ⟨rfl, by simp [s2d]⟩
  exact ⟨rfl, by decide, rfl,
    resource_create_blob_missing_ctx_amended s2d hwf 1 7 paramsBlob none none rfl
      (by decide) rfl⟩

/-- When no catalog entry carries the capset id, resolution fails with
`InvalidCapset` (before the callers' default fallback). -/
theorem capset_id_to_component_type_miss (s : Rutabaga) (x : Nat)
    (hmiss : ∀ capset ∈ s.capset_info, capset.capset_id ≠ x) :
    s.capset_id_to_component_type x = .error .InvalidCapset := by
  have h : s.capset_info.find? (fun capset_info => capset_info.capset_id == x) = none := by
    rw [List.find?_eq_none]
    intro ci hci
    simpa using hmiss ci hci
  unfold Rutabaga.capset_id_to_component_type
  rw [h]

/-- C7: on a well-formed orchestrator, a capset id absent from the instance
catalog makes `get_capset` serve through the configured default component
instead of failing with the unknown-capset error; and `create_context`
resolves its component from the low bits of `context_init`, likewise falling
back to the default component when that capset id is unrecognized. -/
theorem unknown_capset_falls_back_to_default (s : Rutabaga) (hwf : s.WF)
    (capset_id version ctx_id context_init : Nat) (context_name : Option String)
    (hmiss : ∀ capset ∈ s.capset_info, capset.capset_id ≠ capset_id)
    (hmiss2 : ∀ capset ∈ s.capset_info,
      capset.capset_id ≠ context_init &&& RUTABAGA_CONTEXT_INIT_CAPSET_ID_MASK) :
    (∃ comp, mfind? s.components s.default_component = some comp ∧
      s.get_capset capset_id version = .ok (comp.get_capset capset_id version)) ∧
    s.create_context ctx_id context_init context_name =
      s.create_context_with_component s.default_component ctx_id context_init
        context_name := by
  obtain ⟨comp, hcomp⟩ := Option.isSome_iff_exists.mp hwf.1
  constructor
  · refine ⟨comp, hcomp, ?_⟩
    unfold Rutabaga.get_capset
    rw [capset_id_to_component_type_miss s capset_id hmiss]
    dsimp only
    rw [hcomp]
  · unfold Rutabaga.create_context
    dsimp only
    rw [capset_id_to_component_type_miss s _ hmiss2]

/-- C7 witness: on the concrete orchestrator whose catalog only holds the
cross-domain capset, capset id 99 (and a `context_init` of 99) fall back to
the 2D default component. -/
theorem unknown_capset_falls_back_to_default_witness :
    (∀ capset ∈ sCat.capset_info, capset.capset_id ≠ 99) ∧
    (∃ comp, mfind? sCat.components sCat.default_component = some comp ∧
      sCat.get_capset 99 1 = .ok (comp.get_capset 99 1)) ∧
    sCat.create_context 11 99 none =
      sCat.create_context_with_component sCat.default_component 11 99 none := by
  have h := unknown_capset_falls_back_to_default sCat ⟨rfl, by decide⟩ 99 1 11 99 none
    (by decide) (by decide)
  exact ⟨by decide, h.1, h.2⟩

/-- C8: whenever `build` succeeds for a builder with a nonzero context mask,
the produced orchestrator's default component is the one inferred from the
mask — gfxstream if its capset bit is enabled, else virglrenderer if any of
the virgl2, venus or drm bits are enabled, else the cross-domain backend —
regardless of the caller-requested default. -/
theorem build_infers_default_component (b : RutabagaBuilder) (feat : BuildFeatures)
    (fence_handler : RutabagaFenceHandler) (r : Rutabaga)
    (hmask : b.context_mask ≠ 0) (hok : b.build feat fence_handler = .ok r) :
    r.default_component =
      (if b.context_mask &&& (1 <<< RUTABAGA_CAPSET_GFXSTREAM) != 0 then
        RutabagaComponentType.Gfxstream
      else if (b.context_mask &&& (1 <<< RUTABAGA_CAPSET_VIRGL2) != 0) ||
          (b.context_mask &&& (1 <<< RUTABAGA_CAPSET_VENUS) != 0) ||
          (b.context_mask &&& (1 <<< RUTABAGA_CAPSET_DRM) != 0) then
        RutabagaComponentType.VirglRenderer
      else
        RutabagaComponentType.CrossDomain) := by
  have hb : (b.context_mask != 0) = true := by
    simpa [bne_iff_ne] using hmask
  unfold RutabagaBuilder.build at hok
  simp only [hb, if_true, Rutabaga2D.init] at hok
  repeat' split at hok
  all_goals first
    | exact Except.noConfusion hok
    | (rw [← Except.ok.inj hok]
       first
       | rfl
       | simp_all [RutabagaBuilder.capset_enabled])

/-- C8 witness: building with only the cross-domain capset bit set replaces
the requested 2D default with the cross-domain backend. -/
theorem build_infers_default_component_witness :
    b0.context_mask ≠ 0 ∧ b0.build feat0 fh0 = .ok r0 ∧
      r0.default_component =
        (if b0.context_mask &&& (1 <<< RUTABAGA_CAPSET_GFXSTREAM) != 0 then
          RutabagaComponentType.Gfxstream
        else if (b0.context_mask &&& (1 <<< RUTABAGA_CAPSET_VIRGL2) != 0) ||
            (b0.context_mask &&& (1 <<< RUTABAGA_CAPSET_VENUS) != 0) ||
            (b0.context_mask &&& (1 <<< RUTABAGA_CAPSET_DRM) != 0) then
          RutabagaComponentType.VirglRenderer
        else
          RutabagaComponentType.CrossDomain) := by
  have hok : b0.build feat0 fh0 = .ok r0 := by rfl
  exact ⟨by decide, hok, build_infers_default_component b0 feat0 fh0 r0 (by decide) hok⟩

end RutabagaCore
